import Mathlib

/-!
Shallow embedding of `DiscountCalculator.js` from the coupon-management-api
repository, together with proofs about its three calculators.

Conventions of the embedding:
* JS numbers holding prices and discount values are modelled as `ℚ`;
  quantities are `ℕ` (the data model declares them positive integers, and all
  quantity arithmetic in the source is integral: sums, `Math.floor` division,
  `Math.min`).
* A JS argument that may be `null` / `undefined` / not an array is an `Option`.
* `Math.round x` is `⌊x + 1/2⌋` (half-up) on exact rationals.
* A thrown `Error` is an `Except.error`; each public calculator wraps its body
  in the try/catch that converts any internal error into an
  `applicable := false` result (source lines 150-157, 275-282, 476-483).
* `reason` strings and `breakdownInfo` objects are modelled as inductive data
  carrying the interpolated values instead of formatted strings.
-/

namespace DiscountCalculator

/-- One cart line item, `{ product_id, price, quantity }`. -/
structure CartItem where
  product_id : String
  price : ℚ
  quantity : ℕ
  deriving DecidableEq

/-- `{ type: "PERCENTAGE" | "FIXED_AMOUNT", value }` (the type field is a free
string in the source; unknown values are handled at use sites). -/
structure DiscountConfig where
  type : String
  value : ℚ
  deriving DecidableEq

/-- `{ minimum_cart_value, maximum_discount }`, both optional. -/
structure CouponConditions where
  minimum_cart_value : Option ℚ := none
  maximum_discount : Option ℚ := none
  deriving DecidableEq

/-- The messages of the `Error`s thrown inside the calculators. -/
inductive ErrMsg where
  | invalidConditionsOrConfig
  | invalidDiscountConfig
  | unknownDiscountType (t : String)
  | invalidBuyOrGetQuantity
  deriving DecidableEq

/-- The `reason` strings of the result objects, with their interpolated data. -/
inductive Reason where
  | cartEmpty
  | belowMinimum (cartTotal minimum : ℚ)
  | cappedAtMaximum (maximum : ℚ)
  | noApplicableProductsDefined
  | noApplicableProductsInCart
  | noBuyProductsDefined
  | noGetProductsDefined
  | notEnoughBuyItems (required found : ℕ)
  | noEligibleGetItems
  | calculationError (e : ErrMsg)
  deriving DecidableEq

/-- One entry of `discountedItems` in the product-wise breakdown. -/
structure DiscountedItem where
  product_id : String
  quantity : ℕ
  price : ℚ
  itemTotal : ℚ
  discount : ℚ
  deriving DecidableEq

/-- One entry of `freeItemsGivenDetails` in the BxGy breakdown. -/
structure FreeItemDetail where
  product_id : String
  quantity : ℕ
  price : ℚ
  discount : ℚ
  deriving DecidableEq

/-- The `breakdownInfo` objects, one constructor per construction site. -/
inductive BreakdownInfo where
  | belowMin (cartTotal minimumRequired shortfall : ℚ)
  | capped (cartTotal : ℚ) (discountType : String)
      (discountValue calculatedDiscount maximumCap finalDiscount : ℚ)
  | cartWise (cartTotal : ℚ) (discountType : String)
      (discountValue finalDiscount finalAmount : ℚ)
  | noProducts (applicableProducts cartProducts : List String)
  | productWise (discountType : String) (discountValue : ℚ)
      (discountedItems : List DiscountedItem) (totalDiscount : ℚ)
  | bxgyShortfall (buyArray : List String)
      (buyQuantityRequired buyQuantityFound shortfall : ℕ)
      (buyItemsInCart : List CartItem)
  | bxgyNoGet (getArray cartProducts : List String)
  | bxgy (buyQuantityRequired buyQuantityFound getQuantityPerApplication timesApplicable : ℕ)
      (repetitionLimit : Option ℕ) (timesApplied totalFreeItemsGiven : ℕ)
      (freeItemsGivenDetails : List FreeItemDetail) (totalDiscount : ℚ)
  deriving DecidableEq

/-- The standardized result object of every calculator. -/
structure EvalResult where
  applicable : Bool
  discountAmount : ℚ
  reason : Option Reason := none
  breakdownInfo : Option BreakdownInfo := none
  deriving DecidableEq

/-- `Math.round(price * 100) / 100`, the numeric branch of `_roundPrice`
(source lines 509-514); JS `Math.round x` is `⌊x + 1/2⌋`. -/
def round2 (q : ℚ) : ℚ := (⌊q * 100 + 1 / 2⌋ : ℚ) / 100

/-- A JS value as seen by `_roundPrice`: a number or anything else. -/
inductive JSVal where
  | num (q : ℚ)
  | nonNum
  deriving DecidableEq

/-- `_roundPrice` in full: non-numeric input yields `0`. -/
def roundPrice : JSVal → ℚ
  | .num q => round2 q
  | .nonNum => 0

/-- JS `x || d` for an optional numeric field (`null`, `undefined`, `0` are
falsy). -/
def jsOrNum (x : Option ℚ) (d : ℚ) : ℚ :=
  match x with
  | none => d
  | some v => if v = 0 then d else v

/-- JS `x || d` on an optional quantity. -/
def jsOrNat (x : Option ℕ) (d : ℕ) : ℕ :=
  match x with
  | none => d
  | some v => if v = 0 then d else v

/-- JS truthiness of an optional numeric value. -/
def jsTruthyNum : Option ℚ → Bool
  | none => false
  | some v => v != 0

/-- The `Cart is empty` early result (shared literal of all three calculators). -/
def emptyCartResult : EvalResult :=
  { applicable := false, reason := some .cartEmpty, discountAmount := 0 }

/-- The `No applicable products defined for this coupon` early result. -/
def noApplicableProductsResult : EvalResult :=
  { applicable := false, reason := some .noApplicableProductsDefined, discountAmount := 0 }

/-- The `No products defined in buy array` early result. -/
def noBuyArrayResult : EvalResult :=
  { applicable := false, reason := some .noBuyProductsDefined, discountAmount := 0 }

/-- The `No products defined in get array` early result. -/
def noGetArrayResult : EvalResult :=
  { applicable := false, reason := some .noGetProductsDefined, discountAmount := 0 }

/-- STEP 2 of `calculateCartWiseDiscount`:
`cartItems.reduce((sum, item) => sum + item.price * item.quantity, 0)`. -/
def cartTotalOf (cartItems : List CartItem) : ℚ :=
  cartItems.foldl (fun sum item => sum + item.price * (item.quantity : ℚ)) 0

/-- STEPS 5-7 of `calculateCartWiseDiscount` (source lines 106-148): apply the
maximum-discount cap when the cap is truthy and exceeded, else round and
return; `discountAmount` is the raw STEP-4 discount. -/
def finishCartWise (conds : CouponConditions) (config : DiscountConfig)
    (cartTotal discountAmount : ℚ) : EvalResult :=
  let maximumDiscount := conds.maximum_discount.getD 0
  -- `if (maximumDiscount && discountAmount > maximumDiscount)`;
  -- JS `0` is falsy, so a zero cap is never applied.
  if jsTruthyNum conds.maximum_discount ∧ maximumDiscount < discountAmount then
    { applicable := true
      discountAmount := round2 maximumDiscount
      reason := some (.cappedAtMaximum maximumDiscount)
      breakdownInfo := some (.capped (round2 cartTotal) config.type config.value
        (round2 discountAmount) maximumDiscount (round2 maximumDiscount)) }
  else
    { applicable := true
      discountAmount := round2 discountAmount
      breakdownInfo := some (.cartWise (round2 cartTotal) config.type config.value
        (round2 discountAmount) (round2 (cartTotal - round2 discountAmount))) }

/-- Body of `calculateCartWiseDiscount` inside its `try` (source lines 45-148). -/
def calcCartWiseInner (cartItems : Option (List CartItem))
    (couponConditions : Option CouponConditions)
    (discountConfig : Option DiscountConfig) : Except ErrMsg EvalResult :=
  match cartItems with
  | none => .ok emptyCartResult
  | some items =>
    if items.isEmpty then .ok emptyCartResult
    else
      match couponConditions, discountConfig with
      | some conds, some config =>
        let cartTotal := cartTotalOf items
        let minimumValue := jsOrNum conds.minimum_cart_value 0
        if cartTotal < minimumValue then
          .ok { applicable := false
                reason := some (.belowMinimum (round2 cartTotal) minimumValue)
                discountAmount := 0
                breakdownInfo := some (.belowMin (round2 cartTotal) minimumValue
                  (round2 (minimumValue - cartTotal))) }
        else if config.type = "PERCENTAGE" then
          .ok (finishCartWise conds config cartTotal (cartTotal * config.value / 100))
        else if config.type = "FIXED_AMOUNT" then
          .ok (finishCartWise conds config cartTotal config.value)
        else
          .error (.unknownDiscountType config.type)
      | _, _ => .error .invalidConditionsOrConfig

/-- The shared try/catch: any internal error becomes the
`Calculation error: ...` not-applicable result. -/
def runCaught (body : Except ErrMsg EvalResult) : EvalResult :=
  match body with
  | .ok r => r
  | .error e =>
    { applicable := false, reason := some (.calculationError e), discountAmount := 0 }

/-- `calculateCartWiseDiscount`, catch included. -/
def calculateCartWiseDiscount (cartItems : Option (List CartItem))
    (couponConditions : Option CouponConditions)
    (discountConfig : Option DiscountConfig) : EvalResult :=
  runCaught (calcCartWiseInner cartItems couponConditions discountConfig)

/-- Per-line discount of the `forEach` in `calculateProductWiseDiscount`
(source lines 218-228): `itemTotal = price * quantity`, then PERCENTAGE takes
`itemTotal * value / 100`, FIXED_AMOUNT takes `value * quantity`, and any
other type leaves `itemDiscount = 0` (no throw here, unlike cart-wise). -/
def itemDiscountOf (discountConfig : DiscountConfig) (item : CartItem) : ℚ :=
  if discountConfig.type = "PERCENTAGE" then
    item.price * (item.quantity : ℚ) * discountConfig.value / 100
  else if discountConfig.type = "FIXED_AMOUNT" then
    discountConfig.value * (item.quantity : ℚ)
  else 0

/-- The cart lines whose `product_id` is in the applicable-products list
(the `applicableProducts.includes(item.product_id)` guard of the loop). -/
def eligibleItemsOf (cartItems : List CartItem) (applicableProducts : List String) :
    List CartItem :=
  cartItems.filter (fun item => applicableProducts.contains item.product_id)

/-- Body of `calculateProductWiseDiscount` inside its `try`
(source lines 184-273). -/
def calcProductWiseInner (cartItems : Option (List CartItem))
    (applicableProducts : Option (List String))
    (discountConfig : Option DiscountConfig) : Except ErrMsg EvalResult :=
  match cartItems with
  | none => .ok emptyCartResult
  | some items =>
    if items.isEmpty then .ok emptyCartResult
    else
      match applicableProducts with
      | none => .ok noApplicableProductsResult
      | some products =>
        if products.isEmpty then .ok noApplicableProductsResult
        else
          match discountConfig with
          | none => .error .invalidDiscountConfig
          | some config =>
            let eligible := eligibleItemsOf items products
            let totalDiscount := (eligible.map (itemDiscountOf config)).sum
            let discountedItems := eligible.map (fun item =>
              DiscountedItem.mk item.product_id item.quantity item.price
                (item.price * (item.quantity : ℚ)) (round2 (itemDiscountOf config item)))
            if totalDiscount = 0 then
              .ok { applicable := false
                    reason := some .noApplicableProductsInCart
                    discountAmount := 0
                    breakdownInfo := some (.noProducts products (items.map (·.product_id))) }
            else
              .ok { applicable := true
                    discountAmount := round2 totalDiscount
                    breakdownInfo := some (.productWise config.type config.value
                      discountedItems (round2 totalDiscount)) }

/-- `calculateProductWiseDiscount`, catch included. -/
def calculateProductWiseDiscount (cartItems : Option (List CartItem))
    (applicableProducts : Option (List String))
    (discountConfig : Option DiscountConfig) : EvalResult :=
  runCaught (calcProductWiseInner cartItems applicableProducts discountConfig)

/-- The comparator `(a, b) => b.price - a.price` as an ordering relation:
`priceDesc a b` holds when `a` sorts no later than `b` (price descending). -/
def priceDesc (a b : CartItem) : Prop := b.price ≤ a.price

instance : DecidableRel priceDesc :=
  fun a b => inferInstanceAs (Decidable (b.price ≤ a.price))

instance : IsTotal CartItem priceDesc :=
  ⟨fun a b => le_total b.price a.price⟩

instance : IsTrans CartItem priceDesc :=
  ⟨fun _ _ _ h1 h2 => le_trans h2 h1⟩

/-- STEP 6 of `calculateBxGyDiscount`:
`getItems.sort((a, b) => b.price - a.price)` — a stable sort by price
descending (JS `Array#sort` is stable, so it is extensionally the stable
insertion sort under `priceDesc`). -/
def sortByPriceDesc (l : List CartItem) : List CartItem :=
  l.insertionSort priceDesc

/-- STEP 7 of `calculateBxGyDiscount`: walk the sorted candidates, giving
`freeQuantity = min(item.quantity, freeItemsNeeded - freeItemsGiven)` units of
each line for free; once the remaining need is `0` the JS loop body only skips
every further line, modelled here by stopping with `[]`. -/
def greedyFree : ℕ → List CartItem → List FreeItemDetail
  | _, [] => []
  | needed, item :: rest =>
    if needed = 0 then []
    else
      let freeQuantity := min item.quantity needed
      FreeItemDetail.mk item.product_id freeQuantity item.price
        (round2 ((freeQuantity : ℚ) * item.price)) ::
        greedyFree (needed - freeQuantity) rest

/-- The `freeItemsGiven` accumulator: total units marked free. -/
def freeItemsGivenOf (details : List FreeItemDetail) : ℕ :=
  (details.map (·.quantity)).sum

/-- The `totalDiscount` accumulator before rounding: sum of
`freeQuantity * price` over the marked lines. -/
def rawFreeDiscountOf (details : List FreeItemDetail) : ℚ :=
  (details.map (fun d => (d.quantity : ℚ) * d.price)).sum

/-- STEP 2 of `calculateBxGyDiscount`: the `buyCount` accumulator, total
quantity over cart lines whose `product_id` is in `buy_array`. -/
def buyCountOf (cartItems : List CartItem) (buyArray : List String) : ℕ :=
  ((cartItems.filter fun item => buyArray.contains item.product_id).map (·.quantity)).sum

/-- STEP 5 of `calculateBxGyDiscount`:
`cartItems.filter(item => getArray.includes(item.product_id))`. -/
def getItemsOf (cartItems : List CartItem) (getArray : List String) : List CartItem :=
  cartItems.filter fun item => getArray.contains item.product_id

/-- STEPS 4-8 of `calculateBxGyDiscount` (source lines 390-474), after the buy
condition has been met: repetition count, candidate collection, sort, greedy
selection, rounding. -/
def finishBxGy (items : List CartItem) (buyQuantity getQuantity : ℕ)
    (getA : List String) (repetitionLimit : Option ℕ) (buyCount : ℕ) : EvalResult :=
  let timesApplicable := buyCount / buyQuantity
  -- `Math.min(timesApplicable, repetitionLimit || timesApplicable)`.
  let timesToApply := min timesApplicable (jsOrNat repetitionLimit timesApplicable)
  let getItems := getItemsOf items getA
  if getItems.isEmpty then
    { applicable := false
      reason := some .noEligibleGetItems
      discountAmount := 0
      breakdownInfo := some (.bxgyNoGet getA (items.map (·.product_id))) }
  else
    let sorted := sortByPriceDesc getItems
    let freeItemsNeeded := timesToApply * getQuantity
    let details := greedyFree freeItemsNeeded sorted
    let totalDiscount := round2 (rawFreeDiscountOf details)
    { applicable := true
      discountAmount := totalDiscount
      breakdownInfo := some (.bxgy buyQuantity buyCount getQuantity timesApplicable
        repetitionLimit timesToApply (freeItemsGivenOf details) details totalDiscount) }

/-- Body of `calculateBxGyDiscount` inside its `try` (source lines 322-474). -/
def calcBxGyInner (cartItems : Option (List CartItem)) (buyQuantity getQuantity : ℕ)
    (buyArray getArray : Option (List String)) (repetitionLimit : Option ℕ) :
    Except ErrMsg EvalResult :=
  match cartItems with
  | none => .ok emptyCartResult
  | some items =>
    if items.isEmpty then .ok emptyCartResult
    else
      match buyArray with
      | none => .ok noBuyArrayResult
      | some buyA =>
        if buyA.isEmpty then .ok noBuyArrayResult
        else
          match getArray with
          | none => .ok noGetArrayResult
          | some getA =>
            if getA.isEmpty then .ok noGetArrayResult
            -- `if (!buyQuantity || !getQuantity) throw ...` — JS `0` is falsy.
            else if buyQuantity = 0 ∨ getQuantity = 0 then
              .error .invalidBuyOrGetQuantity
            else
              let buyItems := items.filter (fun item => buyA.contains item.product_id)
              let buyCount := buyCountOf items buyA
              if buyCount < buyQuantity then
                .ok { applicable := false
                      reason := some (.notEnoughBuyItems buyQuantity buyCount)
                      discountAmount := 0
                      breakdownInfo := some (.bxgyShortfall buyA buyQuantity buyCount
                        (buyQuantity - buyCount) buyItems) }
              else
                .ok (finishBxGy items buyQuantity getQuantity getA repetitionLimit buyCount)

/-- `calculateBxGyDiscount`, catch included. -/
def calculateBxGyDiscount (cartItems : Option (List CartItem)) (buyQuantity getQuantity : ℕ)
    (buyArray getArray : Option (List String)) (repetitionLimit : Option ℕ) : EvalResult :=
  runCaught (calcBxGyInner cartItems buyQuantity getQuantity buyArray getArray repetitionLimit)

/-- `calculateCartTotal` (source lines 544-554). -/
def calculateCartTotal (cartItems : Option (List CartItem)) : ℚ :=
  match cartItems with
  | none => 0
  | some items => round2 (cartTotalOf items)

/-- The free quantity a BxGy evaluation assigns to position `k` of the sorted
candidate list (`0` beyond the recorded details). -/
def freeQtyAt (details : List FreeItemDetail) (k : ℕ) : ℕ :=
  (details.getD k ⟨"", 0, 0, 0⟩).quantity

theorem cartTotalOf_eq_sum (l : List CartItem) :
    cartTotalOf l = (l.map fun i => i.price * (i.quantity : ℚ)).sum := by
  have key : ∀ (l : List CartItem) (a : ℚ),
      l.foldl (fun sum item => sum + item.price * (item.quantity : ℚ)) a
        = a + (l.map fun i => i.price * (i.quantity : ℚ)).sum := by
    intro l
    induction l with
    | nil => intro a; simp
    | cons i t ih => intro a; simp [ih, add_assoc]
  simpa [cartTotalOf] using key l 0

theorem cartTotalOf_nonneg {l : List CartItem} (h : ∀ i ∈ l, 0 ≤ i.price) :
    0 ≤ cartTotalOf l := by
  rw [cartTotalOf_eq_sum]
  apply List.sum_nonneg
  intro x hx
  simp only [List.mem_map] at hx
  obtain ⟨i, hi, rfl⟩ := hx
  exact mul_nonneg (h i hi) (by positivity)

theorem round2_nonneg {q : ℚ} (h : 0 ≤ q) : 0 ≤ round2 q := by
  have h1 : (0 : ℚ) ≤ q * 100 + 1 / 2 := by nlinarith
  have h2 : (0 : ℤ) ≤ ⌊q * 100 + 1 / 2⌋ := Int.le_floor.mpr (by exact_mod_cast h1)
  have h3 : (0 : ℚ) ≤ (⌊q * 100 + 1 / 2⌋ : ℚ) := by exact_mod_cast h2
  unfold round2
  exact div_nonneg h3 (by norm_num)

theorem round2_idem (q : ℚ) : round2 (round2 q) = round2 q := by
  unfold round2
  have h1 : (⌊q * 100 + 1 / 2⌋ : ℚ) / 100 * 100 + 1 / 2 = 1 / 2 + (⌊q * 100 + 1 / 2⌋ : ℚ) := by
    field_simp
    ring
  rw [h1, Int.floor_add_int]
  norm_num

theorem jsOrNum_some_self (m : ℚ) : jsOrNum (some m) 0 = m := by
  unfold jsOrNum
  by_cases h : m = 0 <;> simp [h]

/-- C9. The rounding helper `_roundPrice` returns `round(x*100)/100` (JS
half-up rounding) on every numeric input, `0` on every non-numeric input, and
is idempotent. -/
theorem roundPrice_spec :
    (∀ q : ℚ, roundPrice (.num q) = ((⌊q * 100 + 1 / 2⌋ : ℤ) : ℚ) / 100) ∧
    roundPrice .nonNum = 0 ∧
    (∀ v : JSVal, round2 (roundPrice v) = roundPrice v) := by
  refine ⟨fun q => rfl, rfl, fun v => ?_⟩
  cases v with
  | num q => exact round2_idem q
  | nonNum =>
    show round2 0 = 0
    unfold round2
    norm_num

theorem jsTruthyNum_none : jsTruthyNum none = false := rfl

theorem jsTruthyNum_some_zero : jsTruthyNum (some 0) = false := by
  simp [jsTruthyNum]

theorem calcCartWiseInner_below (x : CartItem) (xs : List CartItem)
    (conds : CouponConditions) (config : DiscountConfig)
    (h : cartTotalOf (x :: xs) < jsOrNum conds.minimum_cart_value 0) :
    calcCartWiseInner (some (x :: xs)) (some conds) (some config) =
      .ok { applicable := false
            reason := some (.belowMinimum (round2 (cartTotalOf (x :: xs)))
              (jsOrNum conds.minimum_cart_value 0))
            discountAmount := 0
            breakdownInfo := some (.belowMin (round2 (cartTotalOf (x :: xs)))
              (jsOrNum conds.minimum_cart_value 0)
              (round2 (jsOrNum conds.minimum_cart_value 0 - cartTotalOf (x :: xs)))) } := by
  simp [calcCartWiseInner, h]

theorem calcCartWiseInner_percent (x : CartItem) (xs : List CartItem)
    (conds : CouponConditions) (config : DiscountConfig)
    (hmin : ¬ cartTotalOf (x :: xs) < jsOrNum conds.minimum_cart_value 0)
    (hp : config.type = "PERCENTAGE") :
    calcCartWiseInner (some (x :: xs)) (some conds) (some config) =
      .ok (finishCartWise conds config (cartTotalOf (x :: xs))
        (cartTotalOf (x :: xs) * config.value / 100)) := by
  simp [calcCartWiseInner, hmin, hp]

theorem calcCartWiseInner_fixed (x : CartItem) (xs : List CartItem)
    (conds : CouponConditions) (config : DiscountConfig)
    (hmin : ¬ cartTotalOf (x :: xs) < jsOrNum conds.minimum_cart_value 0)
    (hf : config.type = "FIXED_AMOUNT") :
    calcCartWiseInner (some (x :: xs)) (some conds) (some config) =
      .ok (finishCartWise conds config (cartTotalOf (x :: xs)) config.value) := by
  simp [calcCartWiseInner, hmin, hf]

theorem calcCartWiseInner_unknown (x : CartItem) (xs : List CartItem)
    (conds : CouponConditions) (config : DiscountConfig)
    (hmin : ¬ cartTotalOf (x :: xs) < jsOrNum conds.minimum_cart_value 0)
    (hp : config.type ≠ "PERCENTAGE") (hf : config.type ≠ "FIXED_AMOUNT") :
    calcCartWiseInner (some (x :: xs)) (some conds) (some config) =
      .error (.unknownDiscountType config.type) := by
  simp [calcCartWiseInner, hmin, hp, hf]

theorem finishCartWise_applicable (conds : CouponConditions) (config : DiscountConfig)
    (t d : ℚ) : (finishCartWise conds config t d).applicable = true := by
  by_cases h : jsTruthyNum conds.maximum_discount = true ∧ conds.maximum_discount.getD 0 < d <;>
    simp [finishCartWise, h]

theorem finishCartWise_amount_of_not_cap (conds : CouponConditions) (config : DiscountConfig)
    (t d : ℚ)
    (h : ¬(jsTruthyNum conds.maximum_discount = true ∧ conds.maximum_discount.getD 0 < d)) :
    (finishCartWise conds config t d).discountAmount = round2 d := by
  simp [finishCartWise, h]

theorem finishCartWise_amount_cases (conds : CouponConditions) (config : DiscountConfig)
    (t d : ℚ) :
    (finishCartWise conds config t d).discountAmount = round2 d ∨
    (finishCartWise conds config t d).discountAmount = round2 (conds.maximum_discount.getD 0) := by
  by_cases h : jsTruthyNum conds.maximum_discount = true ∧ conds.maximum_discount.getD 0 < d
  · exact Or.inr (by simp [finishCartWise, h])
  · exact Or.inl (by simp [finishCartWise, h])

theorem runCaught_ok (r : EvalResult) : runCaught (.ok r) = r := rfl

theorem runCaught_error (e : ErrMsg) :
    runCaught (.error e) =
      { applicable := false, reason := some (.calculationError e), discountAmount := 0 } := rfl

/-- C2 (amended). For every non-empty cart meeting the minimum-spend gate, a
discount type that is neither PERCENTAGE nor FIXED_AMOUNT makes
`calculateCartWiseDiscount` raise internally but catch its own error: the
caller receives the `applicable = false`, `discountAmount = 0` result whose
reason is `Calculation error: Unknown discount type: ...`, not a thrown
error. -/
theorem unknown_type_returns_calculation_error (cart : List CartItem)
    (conds : CouponConditions) (config : DiscountConfig) (hne : cart ≠ [])
    (hmin : ¬ cartTotalOf cart < jsOrNum conds.minimum_cart_value 0)
    (hp : config.type ≠ "PERCENTAGE") (hf : config.type ≠ "FIXED_AMOUNT") :
    calculateCartWiseDiscount (some cart) (some conds) (some config) =
      { applicable := false
        discountAmount := 0
        reason := some (.calculationError (.unknownDiscountType config.type)) } := by
  obtain ⟨x, xs, rfl⟩ := List.exists_cons_of_ne_nil hne
  unfold calculateCartWiseDiscount
  rw [calcCartWiseInner_unknown x xs conds config hmin hp hf, runCaught_error]

theorem unknown_type_returns_calculation_error_witness :
    calculateCartWiseDiscount (some [⟨"A", 150, 1⟩]) (some ⟨some 100, none⟩)
      (some ⟨"BOGO", 10⟩) =
      { applicable := false
        discountAmount := 0
        reason := some (.calculationError (.unknownDiscountType "BOGO")) } :=
  unknown_type_returns_calculation_error [⟨"A", 150, 1⟩] ⟨some 100, none⟩ ⟨"BOGO", 10⟩
    (by decide) (by norm_num [cartTotalOf, jsOrNum]) (by decide) (by decide)

/-- C2 counterexample. On a non-empty cart meeting the minimum with the
unknown discount type `"BOGO"`, `calculateCartWiseDiscount` returns an
`applicable = false` EvaluationResult (the internal throw is caught), contrary
to the claim that the error reaches the caller and no `applicable = false`
result is returned. -/
theorem unknown_type_not_thrown_to_caller :
    (calculateCartWiseDiscount (some [⟨"A", 150, 1⟩]) (some ⟨some 100, none⟩)
      (some ⟨"BOGO", 10⟩)).applicable = false ∧
    (calculateCartWiseDiscount (some [⟨"A", 150, 1⟩]) (some ⟨some 100, none⟩)
      (some ⟨"BOGO", 10⟩)).discountAmount = 0 := by
  have h := calcCartWiseInner_unknown ⟨"A", 150, 1⟩ [] ⟨some 100, none⟩ ⟨"BOGO", 10⟩
    (by norm_num [cartTotalOf, jsOrNum]) (by decide) (by decide)
  unfold calculateCartWiseDiscount
  rw [h, runCaught_error]
  exact ⟨rfl, rfl⟩

/-- C3 (amended). `maximum_discount = 0` is falsy in the cap test
`if (maximumDiscount && discountAmount > maximumDiscount)`, so a zero cap is
treated as no cap at all: for a non-empty cart meeting the minimum and a known
discount type, the result is `applicable = true` with the full uncapped
(rounded) discount, not a discount capped to zero. -/
theorem zero_maximum_discount_uncapped (cart : List CartItem) (conds : CouponConditions)
    (config : DiscountConfig) (hne : cart ≠ [])
    (hmax : conds.maximum_discount = some 0)
    (hmin : ¬ cartTotalOf cart < jsOrNum conds.minimum_cart_value 0)
    (htype : config.type = "PERCENTAGE" ∨ config.type = "FIXED_AMOUNT") :
    (calculateCartWiseDiscount (some cart) (some conds) (some config)).applicable = true ∧
    (calculateCartWiseDiscount (some cart) (some conds) (some config)).discountAmount =
      round2 (if config.type = "PERCENTAGE" then cartTotalOf cart * config.value / 100
        else config.value) := by
  obtain ⟨x, xs, rfl⟩ := List.exists_cons_of_ne_nil hne
  have htr : jsTruthyNum conds.maximum_discount = false := by
    rw [hmax]; exact jsTruthyNum_some_zero
  have hnocap : ∀ d : ℚ,
      ¬(jsTruthyNum conds.maximum_discount = true ∧ conds.maximum_discount.getD 0 < d) := by
    intro d hc
    rw [htr] at hc
    exact absurd hc.1 (by simp)
  rcases htype with hp | hf
  · unfold calculateCartWiseDiscount
    rw [calcCartWiseInner_percent x xs conds config hmin hp, runCaught_ok, if_pos hp]
    exact ⟨finishCartWise_applicable conds config _ _,
      finishCartWise_amount_of_not_cap conds config _ _ (hnocap _)⟩
  · unfold calculateCartWiseDiscount
    rw [calcCartWiseInner_fixed x xs conds config hmin hf, runCaught_ok,
      if_neg (by rw [hf]; decide)]
    exact ⟨finishCartWise_applicable conds config _ _,
      finishCartWise_amount_of_not_cap conds config _ _ (hnocap _)⟩

theorem zero_maximum_discount_uncapped_witness :
    (calculateCartWiseDiscount (some [⟨"A", 200, 1⟩]) (some ⟨some 100, some 0⟩)
      (some ⟨"PERCENTAGE", 10⟩)).applicable = true ∧
    (calculateCartWiseDiscount (some [⟨"A", 200, 1⟩]) (some ⟨some 100, some 0⟩)
      (some ⟨"PERCENTAGE", 10⟩)).discountAmount =
      round2 (if ("PERCENTAGE" : String) = "PERCENTAGE"
        then cartTotalOf [⟨"A", 200, 1⟩] * 10 / 100 else 10) :=
  zero_maximum_discount_uncapped [⟨"A", 200, 1⟩] ⟨some 100, some 0⟩ ⟨"PERCENTAGE", 10⟩
    (by decide) rfl (by norm_num [cartTotalOf, jsOrNum]) (Or.inl rfl)

/-- C3 counterexample. Cart total `200`, minimum `100`, `maximum_discount = 0`,
10 percent discount: the code returns `applicable = true` with
`discountAmount = 20` — the uncapped discount — not `0` as the claim states. -/
theorem zero_maximum_discount_not_capped_to_zero :
    (calculateCartWiseDiscount (some [⟨"A", 200, 1⟩]) (some ⟨some 100, some 0⟩)
      (some ⟨"PERCENTAGE", 10⟩)).applicable = true ∧
    (calculateCartWiseDiscount (some [⟨"A", 200, 1⟩]) (some ⟨some 100, some 0⟩)
      (some ⟨"PERCENTAGE", 10⟩)).discountAmount ≠ 0 := by
  have h := calcCartWiseInner_percent ⟨"A", 200, 1⟩ [] ⟨some 100, some 0⟩ ⟨"PERCENTAGE", 10⟩
    (by norm_num [cartTotalOf, jsOrNum]) rfl
  unfold calculateCartWiseDiscount
  rw [h, runCaught_ok]
  refine ⟨finishCartWise_applicable _ _ _ _, ?_⟩
  rw [finishCartWise_amount_of_not_cap _ _ _ _ (by decide)]
  norm_num [cartTotalOf, round2]

/-- C6. For a non-empty cart, a cart-wise coupon with minimum cart value `m`
and a well-formed discount type, the result is applicable exactly when the
cart total meets the minimum. -/
theorem cartwise_applicable_iff_min_met (cart : List CartItem) (conds : CouponConditions)
    (config : DiscountConfig) (m : ℚ) (hne : cart ≠ [])
    (hm : conds.minimum_cart_value = some m)
    (htype : config.type = "PERCENTAGE" ∨ config.type = "FIXED_AMOUNT") :
    (calculateCartWiseDiscount (some cart) (some conds) (some config)).applicable = true ↔
      m ≤ cartTotalOf cart := by
  obtain ⟨x, xs, rfl⟩ := List.exists_cons_of_ne_nil hne
  have hmv : jsOrNum conds.minimum_cart_value 0 = m := by rw [hm, jsOrNum_some_self]
  by_cases hlt : cartTotalOf (x :: xs) < jsOrNum conds.minimum_cart_value 0
  · unfold calculateCartWiseDiscount
    rw [calcCartWiseInner_below x xs conds config hlt, runCaught_ok]
    rw [hmv] at hlt
    simp [not_le.mpr hlt]
  · have hle : m ≤ cartTotalOf (x :: xs) := by
      rw [hmv] at hlt; exact not_lt.mp hlt
    rcases htype with hp | hf
    · unfold calculateCartWiseDiscount
      rw [calcCartWiseInner_percent x xs conds config hlt hp, runCaught_ok]
      simp [finishCartWise_applicable, hle]
    · unfold calculateCartWiseDiscount
      rw [calcCartWiseInner_fixed x xs conds config hlt hf, runCaught_ok]
      simp [finishCartWise_applicable, hle]

theorem cartwise_applicable_iff_min_met_witness :
    ((calculateCartWiseDiscount (some [⟨"A", 100, 1⟩, ⟨"B", 50, 1⟩])
      (some ⟨some 100, none⟩) (some ⟨"PERCENTAGE", 10⟩)).applicable = true ↔
      (100 : ℚ) ≤ cartTotalOf [⟨"A", 100, 1⟩, ⟨"B", 50, 1⟩]) :=
  cartwise_applicable_iff_min_met [⟨"A", 100, 1⟩, ⟨"B", 50, 1⟩] ⟨some 100, none⟩
    ⟨"PERCENTAGE", 10⟩ 100 (by decide) rfl (Or.inl rfl)

theorem round2_zero : round2 0 = 0 := by
  unfold round2
  norm_num

theorem productWise_result_of_sum_zero (items : List CartItem) (products : List String)
    (config : DiscountConfig) (hne : items ≠ []) (hpne : products ≠ [])
    (h : ((eligibleItemsOf items products).map (itemDiscountOf config)).sum = 0) :
    calculateProductWiseDiscount (some items) (some products) (some config) =
      { applicable := false
        reason := some .noApplicableProductsInCart
        discountAmount := 0
        breakdownInfo := some (.noProducts products (items.map (·.product_id))) } := by
  obtain ⟨x, xs, rfl⟩ := List.exists_cons_of_ne_nil hne
  obtain ⟨p, ps, rfl⟩ := List.exists_cons_of_ne_nil hpne
  simp [calculateProductWiseDiscount, calcProductWiseInner, runCaught, h]

theorem productWise_result_of_sum_ne_zero (items : List CartItem) (products : List String)
    (config : DiscountConfig) (hne : items ≠ []) (hpne : products ≠ [])
    (h : ((eligibleItemsOf items products).map (itemDiscountOf config)).sum ≠ 0) :
    calculateProductWiseDiscount (some items) (some products) (some config) =
      { applicable := true
        discountAmount := round2 (((eligibleItemsOf items products).map (itemDiscountOf config)).sum)
        breakdownInfo := some (.productWise config.type config.value
          ((eligibleItemsOf items products).map fun item =>
            DiscountedItem.mk item.product_id item.quantity item.price
              (item.price * (item.quantity : ℚ)) (round2 (itemDiscountOf config item)))
          (round2 (((eligibleItemsOf items products).map (itemDiscountOf config)).sum))) } := by
  obtain ⟨x, xs, rfl⟩ := List.exists_cons_of_ne_nil hne
  obtain ⟨p, ps, rfl⟩ := List.exists_cons_of_ne_nil hpne
  simp [calculateProductWiseDiscount, calcProductWiseInner, runCaught, h]

theorem productWise_app_amount (cartItems : List CartItem) (products : List String)
    (config : Option DiscountConfig) :
    ((calculateProductWiseDiscount (some cartItems) (some products) config).applicable,
      (calculateProductWiseDiscount (some cartItems) (some products) config).discountAmount) =
      match config with
      | none => (false, 0)
      | some cfg =>
        if ((eligibleItemsOf cartItems products).map (itemDiscountOf cfg)).sum = 0 then (false, 0)
        else (true, round2 (((eligibleItemsOf cartItems products).map (itemDiscountOf cfg)).sum)) := by
  cases config with
  | none =>
    cases cartItems with
    | nil => rfl
    | cons x xs =>
      cases products with
      | nil => rfl
      | cons p ps => rfl
  | some cfg =>
    cases cartItems with
    | nil =>
      simp [calculateProductWiseDiscount, calcProductWiseInner, runCaught, emptyCartResult,
        eligibleItemsOf]
    | cons x xs =>
      cases products with
      | nil =>
        simp [calculateProductWiseDiscount, calcProductWiseInner, runCaught,
          noApplicableProductsResult, eligibleItemsOf]
      | cons p ps =>
        by_cases hS : ((eligibleItemsOf (x :: xs) (p :: ps)).map (itemDiscountOf cfg)).sum = 0 <;>
          simp [calculateProductWiseDiscount, calcProductWiseInner, runCaught, hS]

/-- C7. For a non-empty cart, a non-empty eligible-product list and a known
discount type, `calculateProductWiseDiscount` computes per eligible line
`(price*quantity)*value/100` under PERCENTAGE and `value*quantity` under
FIXED_AMOUNT; its `discountAmount` is the 2-decimal rounding of the sum of
those per-line discounts, it is applicable exactly when that sum is nonzero,
and every line reported in the breakdown is in the allow-list. -/
theorem productwise_amount_spec (cart : List CartItem) (products : List String)
    (config : DiscountConfig) (hne : cart ≠ []) (hpne : products ≠ [])
    (htype : config.type = "PERCENTAGE" ∨ config.type = "FIXED_AMOUNT") :
    ((calculateProductWiseDiscount (some cart) (some products) (some config)).discountAmount =
      round2 (((cart.filter fun i => products.contains i.product_id).map fun i =>
        if config.type = "PERCENTAGE" then i.price * (i.quantity : ℚ) * config.value / 100
        else config.value * (i.quantity : ℚ)).sum)) ∧
    ((calculateProductWiseDiscount (some cart) (some products) (some config)).applicable = true ↔
      ((cart.filter fun i => products.contains i.product_id).map fun i =>
        if config.type = "PERCENTAGE" then i.price * (i.quantity : ℚ) * config.value / 100
        else config.value * (i.quantity : ℚ)).sum ≠ 0) ∧
    (∀ dt dv ditems tot,
      (calculateProductWiseDiscount (some cart) (some products) (some config)).breakdownInfo =
        some (.productWise dt dv ditems tot) →
      ∀ d ∈ ditems, d.product_id ∈ products) := by
  have hfun : (fun i : CartItem =>
      if config.type = "PERCENTAGE" then i.price * (i.quantity : ℚ) * config.value / 100
      else config.value * (i.quantity : ℚ)) = itemDiscountOf config := by
    funext i
    rcases htype with hp | hf
    · simp [itemDiscountOf, hp]
    · simp [itemDiscountOf, hf]
  have hfil : (cart.filter fun i => products.contains i.product_id) =
      eligibleItemsOf cart products := rfl
  rw [hfil, hfun]
  by_cases hS : ((eligibleItemsOf cart products).map (itemDiscountOf config)).sum = 0
  · rw [productWise_result_of_sum_zero cart products config hne hpne hS]
    refine ⟨by simp [hS, round2_zero], by simp [hS], ?_⟩
    intro dt dv ditems tot h
    simp at h
  · rw [productWise_result_of_sum_ne_zero cart products config hne hpne hS]
    refine ⟨rfl, by simp [hS], ?_⟩
    intro dt dv ditems tot h d hd
    simp only [Option.some.injEq, BreakdownInfo.productWise.injEq] at h
    obtain ⟨-, -, hditems, -⟩ := h
    subst hditems
    simp only [List.mem_map] at hd
    obtain ⟨item, hitem, rfl⟩ := hd
    have := List.mem_filter.mp hitem
    simpa using this.2

theorem productwise_amount_spec_witness :
    ((calculateProductWiseDiscount (some [⟨"P1", 100, 2⟩, ⟨"P2", 50, 1⟩, ⟨"P3", 75, 1⟩])
      (some ["P1", "P3"]) (some ⟨"PERCENTAGE", 20⟩)).discountAmount =
      round2 (((([⟨"P1", 100, 2⟩, ⟨"P2", 50, 1⟩, ⟨"P3", 75, 1⟩] : List CartItem).filter
        fun i => ["P1", "P3"].contains i.product_id).map fun i =>
        if ("PERCENTAGE" : String) = "PERCENTAGE" then i.price * (i.quantity : ℚ) * 20 / 100
        else 20 * (i.quantity : ℚ)).sum)) ∧
    ((calculateProductWiseDiscount (some [⟨"P1", 100, 2⟩, ⟨"P2", 50, 1⟩, ⟨"P3", 75, 1⟩])
      (some ["P1", "P3"]) (some ⟨"PERCENTAGE", 20⟩)).applicable = true ↔
      ((([⟨"P1", 100, 2⟩, ⟨"P2", 50, 1⟩, ⟨"P3", 75, 1⟩] : List CartItem).filter
        fun i => ["P1", "P3"].contains i.product_id).map fun i =>
        if ("PERCENTAGE" : String) = "PERCENTAGE" then i.price * (i.quantity : ℚ) * 20 / 100
        else 20 * (i.quantity : ℚ)).sum ≠ 0) ∧
    (∀ dt dv ditems tot,
      (calculateProductWiseDiscount (some [⟨"P1", 100, 2⟩, ⟨"P2", 50, 1⟩, ⟨"P3", 75, 1⟩])
        (some ["P1", "P3"]) (some ⟨"PERCENTAGE", 20⟩)).breakdownInfo =
        some (.productWise dt dv ditems tot) →
      ∀ d ∈ ditems, d.product_id ∈ ["P1", "P3"]) :=
  productwise_amount_spec [⟨"P1", 100, 2⟩, ⟨"P2", 50, 1⟩, ⟨"P3", 75, 1⟩] ["P1", "P3"]
    ⟨"PERCENTAGE", 20⟩ (by decide) (by decide) (Or.inl rfl)

/-- C8 (amended). Removing a cart line whose product id is not in the
allow-list never changes `applicable` or `discountAmount`. (The full result
can change: the not-applicable breakdown echoes every cart product id, and
removing the last line switches to the `Cart is empty` result.) -/
theorem productwise_ignore_ineligible_amended (pre suf : List CartItem) (l : CartItem)
    (products : List String) (config : Option DiscountConfig)
    (hl : l.product_id ∉ products) :
    ((calculateProductWiseDiscount (some (pre ++ l :: suf)) (some products) config).applicable =
      (calculateProductWiseDiscount (some (pre ++ suf)) (some products) config).applicable) ∧
    ((calculateProductWiseDiscount (some (pre ++ l :: suf)) (some products) config).discountAmount =
      (calculateProductWiseDiscount (some (pre ++ suf)) (some products) config).discountAmount) := by
  have hcon : products.contains l.product_id = false := by
    simpa using hl
  have hel : eligibleItemsOf (pre ++ l :: suf) products = eligibleItemsOf (pre ++ suf) products := by
    simp only [eligibleItemsOf, List.filter_append, List.filter_cons, hcon]
    simp
  have h1 := productWise_app_amount (pre ++ l :: suf) products config
  have h2 := productWise_app_amount (pre ++ suf) products config
  rw [hel] at h1
  have h3 := h1.trans h2.symm
  exact ⟨congrArg Prod.fst h3, congrArg Prod.snd h3⟩

/-- C8 counterexample. Cart `[{P2, 50, 1}]` with allow-list `[P1]`: the result
differs from the one on the cart with the (ineligible) line removed — the
former reports `No applicable products found in your cart`, the latter
`Cart is empty`. -/
theorem productwise_removal_changes_result :
    calculateProductWiseDiscount (some [⟨"P2", 50, 1⟩]) (some ["P1"])
      (some ⟨"PERCENTAGE", 20⟩) ≠
    calculateProductWiseDiscount (some []) (some ["P1"]) (some ⟨"PERCENTAGE", 20⟩) := by
  intro h
  have h1 : calculateProductWiseDiscount (some []) (some ["P1"]) (some ⟨"PERCENTAGE", 20⟩) =
      emptyCartResult := rfl
  have h2 := productWise_result_of_sum_zero [⟨"P2", 50, 1⟩] ["P1"] ⟨"PERCENTAGE", 20⟩
    (by decide) (by decide) (by simp [eligibleItemsOf])
  rw [h1, h2] at h
  exact absurd (congrArg EvalResult.reason h) (by decide)

theorem productwise_ignore_ineligible_amended_witness :
    ((calculateProductWiseDiscount (some ([⟨"P1", 100, 1⟩] ++ ⟨"P2", 50, 1⟩ :: []))
      (some ["P1"]) (some ⟨"PERCENTAGE", 20⟩)).applicable =
      (calculateProductWiseDiscount (some ([⟨"P1", 100, 1⟩] ++ []))
        (some ["P1"]) (some ⟨"PERCENTAGE", 20⟩)).applicable) ∧
    ((calculateProductWiseDiscount (some ([⟨"P1", 100, 1⟩] ++ ⟨"P2", 50, 1⟩ :: []))
      (some ["P1"]) (some ⟨"PERCENTAGE", 20⟩)).discountAmount =
      (calculateProductWiseDiscount (some ([⟨"P1", 100, 1⟩] ++ []))
        (some ["P1"]) (some ⟨"PERCENTAGE", 20⟩)).discountAmount) :=
  productwise_ignore_ineligible_amended [⟨"P1", 100, 1⟩] [] ⟨"P2", 50, 1⟩ ["P1"]
    (some ⟨"PERCENTAGE", 20⟩) (by decide)

theorem greedyFree_zero (l : List CartItem) : greedyFree 0 l = [] := by
  cases l <;> simp [greedyFree]

theorem greedyFree_length_le : ∀ (needed : ℕ) (l : List CartItem),
    (greedyFree needed l).length ≤ l.length
  | _, [] => by simp [greedyFree]
  | needed, x :: xs => by
    rw [greedyFree]
    by_cases h : needed = 0
    · simp [h]
    · rw [if_neg h]
      simpa using greedyFree_length_le (needed - min x.quantity needed) xs

theorem greedyFree_mem : ∀ (needed : ℕ) (l : List CartItem),
    ∀ d ∈ greedyFree needed l, ∃ i ∈ l, d.product_id = i.product_id ∧ d.price = i.price ∧
      d.quantity ≤ i.quantity
  | _, [] => by simp [greedyFree]
  | needed, x :: xs => by
    intro d hd
    rw [greedyFree] at hd
    by_cases h : needed = 0
    · rw [if_pos h] at hd
      simp at hd
    · rw [if_neg h] at hd
      rcases List.mem_cons.mp hd with rfl | hmem
      · exact ⟨x, List.mem_cons_self x xs, rfl, rfl, Nat.min_le_left _ _⟩
      · obtain ⟨i, hi, h1, h2, h3⟩ := greedyFree_mem (needed - min x.quantity needed) xs d hmem
        exact ⟨i, List.mem_cons_of_mem x hi, h1, h2, h3⟩

theorem greedyFree_sum_le : ∀ (needed : ℕ) (l : List CartItem),
    freeItemsGivenOf (greedyFree needed l) ≤ needed
  | _, [] => by simp [greedyFree, freeItemsGivenOf]
  | needed, x :: xs => by
    rw [greedyFree]
    by_cases h : needed = 0
    · simp [h, freeItemsGivenOf]
    · rw [if_neg h]
      have ih := greedyFree_sum_le (needed - min x.quantity needed) xs
      simp only [freeItemsGivenOf, List.map_cons, List.sum_cons] at ih ⊢
      omega

/-- Quantity of the cart line at position `k` (`0` out of range). -/
def qtyAt (l : List CartItem) (k : ℕ) : ℕ :=
  (l.getD k ⟨"", 0, 0⟩).quantity

theorem greedyFree_le_qtyAt : ∀ (needed : ℕ) (l : List CartItem) (k : ℕ),
    freeQtyAt (greedyFree needed l) k ≤ qtyAt l k
  | _, [], k => by simp [greedyFree, freeQtyAt, qtyAt]
  | needed, x :: xs, k => by
    by_cases hz : needed = 0
    · rw [greedyFree, if_pos hz]
      simp [freeQtyAt]
    · rw [greedyFree, if_neg hz]
      cases k with
      | zero =>
        have hmin := Nat.min_le_left x.quantity needed
        simpa [freeQtyAt, qtyAt] using hmin
      | succ k =>
        simpa [freeQtyAt, qtyAt] using
          greedyFree_le_qtyAt (needed - min x.quantity needed) xs k

theorem greedyFree_full_qtyAt : ∀ (needed : ℕ) (l : List CartItem) (k : ℕ),
    k + 1 < (greedyFree needed l).length → freeQtyAt (greedyFree needed l) k = qtyAt l k
  | _, [], k => by simp [greedyFree]
  | needed, x :: xs, k => by
    intro h
    by_cases hz : needed = 0
    · rw [greedyFree, if_pos hz] at h
      simp at h
    · rw [greedyFree, if_neg hz] at h ⊢
      cases k with
      | zero =>
        have htail : greedyFree (needed - min x.quantity needed) xs ≠ [] := by
          intro hnil
          simp [hnil] at h
        have hrem : needed - min x.quantity needed ≠ 0 :=
          fun h0 => htail (h0 ▸ greedyFree_zero xs)
        have hmin : min x.quantity needed = x.quantity := by omega
        simp [freeQtyAt, qtyAt, hmin]
      | succ k =>
        have hlen : k + 1 < (greedyFree (needed - min x.quantity needed) xs).length := by
          simpa using h
        simpa [freeQtyAt, qtyAt] using
          greedyFree_full_qtyAt (needed - min x.quantity needed) xs k hlen

theorem freeQtyAt_of_lt (details : List FreeItemDetail) (k : ℕ) (h : k < details.length) :
    freeQtyAt details k = (details.get ⟨k, h⟩).quantity := by
  unfold freeQtyAt
  rw [List.getD_eq_getElem?_getD, List.getElem?_eq_getElem h]
  simp [List.get_eq_getElem]

theorem freeQtyAt_of_ge (details : List FreeItemDetail) (k : ℕ) (h : details.length ≤ k) :
    freeQtyAt details k = 0 := by
  unfold freeQtyAt
  rw [List.getD_eq_getElem?_getD, List.getElem?_eq_none (by omega)]
  rfl

theorem qtyAt_of_lt (l : List CartItem) (k : ℕ) (h : k < l.length) :
    qtyAt l k = (l.get ⟨k, h⟩).quantity := by
  unfold qtyAt
  rw [List.getD_eq_getElem?_getD, List.getElem?_eq_getElem h]
  simp [List.get_eq_getElem]

theorem sortByPriceDesc_sorted (l : List CartItem) :
    (sortByPriceDesc l).Sorted priceDesc :=
  List.sorted_insertionSort priceDesc l

theorem sortByPriceDesc_perm (l : List CartItem) : (sortByPriceDesc l).Perm l :=
  List.perm_insertionSort priceDesc l

theorem calcBxGyInner_success (x : CartItem) (xs : List CartItem) (p q : String)
    (ps qs : List String) (bq gq : ℕ) (rl : Option ℕ)
    (hbq : bq ≠ 0) (hgq : gq ≠ 0)
    (hcount : ¬ buyCountOf (x :: xs) (p :: ps) < bq) :
    calcBxGyInner (some (x :: xs)) bq gq (some (p :: ps)) (some (q :: qs)) rl =
      .ok (finishBxGy (x :: xs) bq gq (q :: qs) rl (buyCountOf (x :: xs) (p :: ps))) := by
  simp [calcBxGyInner, hbq, hgq, hcount]

theorem finishBxGy_inversion (items : List CartItem) (bq gq : ℕ) (getA : List String)
    (rl : Option ℕ) (bc : ℕ) (a b c d : ℕ) (e : Option ℕ) (f g : ℕ)
    (details : List FreeItemDetail) (tot : ℚ)
    (h : (finishBxGy items bq gq getA rl bc).breakdownInfo =
      some (.bxgy a b c d e f g details tot)) :
    a = bq ∧ b = bc ∧ c = gq ∧ d = bc / bq ∧ e = rl ∧
    f = min (bc / bq) (jsOrNat rl (bc / bq)) ∧
    details = greedyFree (min (bc / bq) (jsOrNat rl (bc / bq)) * gq)
      (sortByPriceDesc (getItemsOf items getA)) ∧
    g = freeItemsGivenOf details ∧
    tot = round2 (rawFreeDiscountOf details) ∧
    (finishBxGy items bq gq getA rl bc).discountAmount = tot ∧
    (finishBxGy items bq gq getA rl bc).applicable = true := by
  by_cases hempty : (getItemsOf items getA).isEmpty = true
  · simp [finishBxGy, hempty] at h
  · simp only [finishBxGy, hempty, if_false, Bool.false_eq_true, Option.some.injEq,
      BreakdownInfo.bxgy.injEq] at h
    obtain ⟨h1, h2, h3, h4, h5, h6, h7, h8, h9⟩ := h
    subst h1 h2 h3 h4 h5 h6 h8 h9
    subst h7
    refine ⟨rfl, rfl, rfl, rfl, rfl, rfl, rfl, rfl, rfl, ?_, ?_⟩ <;>
      simp [finishBxGy, hempty]

theorem calcBxGy_breakdown_inversion (cartItems : List CartItem) (bq gq : ℕ)
    (buyA getA : List String) (rl : Option ℕ) (a b c d : ℕ) (e : Option ℕ) (f g : ℕ)
    (details : List FreeItemDetail) (tot : ℚ)
    (h : (calculateBxGyDiscount (some cartItems) bq gq (some buyA) (some getA) rl).breakdownInfo
      = some (.bxgy a b c d e f g details tot)) :
    calculateBxGyDiscount (some cartItems) bq gq (some buyA) (some getA) rl =
      finishBxGy cartItems bq gq getA rl (buyCountOf cartItems buyA) ∧
    ¬ buyCountOf cartItems buyA < bq ∧ bq ≠ 0 ∧ gq ≠ 0 := by
  cases cartItems with
  | nil => simp [calculateBxGyDiscount, calcBxGyInner, runCaught, emptyCartResult] at h
  | cons x xs =>
    cases buyA with
    | nil => simp [calculateBxGyDiscount, calcBxGyInner, runCaught, noBuyArrayResult] at h
    | cons p ps =>
      cases getA with
      | nil => simp [calculateBxGyDiscount, calcBxGyInner, runCaught, noGetArrayResult] at h
      | cons q qs =>
        by_cases hq : bq = 0 ∨ gq = 0
        · simp [calculateBxGyDiscount, calcBxGyInner, runCaught, hq] at h
        · push_neg at hq
          obtain ⟨hbq, hgq⟩ := hq
          by_cases hcount : buyCountOf (x :: xs) (p :: ps) < bq
          · simp [calculateBxGyDiscount, calcBxGyInner, runCaught, hbq, hgq, hcount] at h
          · have hs := calcBxGyInner_success x xs p q ps qs bq gq rl hbq hgq hcount
            refine ⟨?_, hcount, hbq, hgq⟩
            unfold calculateBxGyDiscount
            rw [hs, runCaught_ok]

/-- C4. In every applicable BxGy evaluation, the free units recorded in
`freeItemsGivenDetails` are consumed from the price-descending sorted candidate
list greedily: whenever the candidate at position `i` received any free unit
and the candidate at position `j` is strictly more expensive, the candidate at
`j` was freed in full — no unit of a cheaper line is freed while a unit of a
more expensive eligible line remains unfree. -/
theorem bxgy_prefers_higher_priced (cartItems : List CartItem) (bq gq : ℕ)
    (buyA getA : List String) (rl : Option ℕ) (a b c d : ℕ) (e : Option ℕ) (f g : ℕ)
    (details : List FreeItemDetail) (tot : ℚ)
    (h : (calculateBxGyDiscount (some cartItems) bq gq (some buyA) (some getA) rl).breakdownInfo
      = some (.bxgy a b c d e f g details tot))
    (i j : ℕ)
    (hi : i < (sortByPriceDesc (getItemsOf cartItems getA)).length)
    (hj : j < (sortByPriceDesc (getItemsOf cartItems getA)).length)
    (hprice : ((sortByPriceDesc (getItemsOf cartItems getA)).get ⟨i, hi⟩).price <
      ((sortByPriceDesc (getItemsOf cartItems getA)).get ⟨j, hj⟩).price)
    (hfree : 0 < freeQtyAt details i) :
    freeQtyAt details j =
      ((sortByPriceDesc (getItemsOf cartItems getA)).get ⟨j, hj⟩).quantity := by
  obtain ⟨hres, -, -, -⟩ := calcBxGy_breakdown_inversion cartItems bq gq buyA getA rl
    a b c d e f g details tot h
  rw [hres] at h
  obtain ⟨-, -, -, -, -, -, hdet, -, -, -, -⟩ := finishBxGy_inversion cartItems bq gq getA rl
    (buyCountOf cartItems buyA) a b c d e f g details tot h
  subst hdet
  have hsorted := sortByPriceDesc_sorted (getItemsOf cartItems getA)
  have hji : j < i := by
    rcases Nat.lt_trichotomy i j with hlt | heq | hgt
    · have hrel := hsorted.rel_get_of_lt
        (show (⟨i, hi⟩ : Fin (sortByPriceDesc (getItemsOf cartItems getA)).length) < ⟨j, hj⟩
          from hlt)
      exact absurd hprice (not_lt.mpr hrel)
    · subst heq
      exact absurd hprice (lt_irrefl _)
    · exact hgt
  have hilen : i < (greedyFree
      (min (buyCountOf cartItems buyA / bq) (jsOrNat rl (buyCountOf cartItems buyA / bq)) * gq)
      (sortByPriceDesc (getItemsOf cartItems getA))).length := by
    by_contra hnot
    rw [freeQtyAt_of_ge _ _ (le_of_not_lt hnot)] at hfree
    exact lt_irrefl 0 hfree
  have hjlen : j + 1 < (greedyFree
      (min (buyCountOf cartItems buyA / bq) (jsOrNat rl (buyCountOf cartItems buyA / bq)) * gq)
      (sortByPriceDesc (getItemsOf cartItems getA))).length := by omega
  rw [greedyFree_full_qtyAt _ _ j hjlen, qtyAt_of_lt _ j hj]

/-- C5. In every applicable BxGy evaluation with `buyCount ≥ buyQuantity > 0`
and `getQuantity > 0`: `timesApplied ≤ ⌊buyCount / buyQuantity⌋`;
`timesApplied ≤ repetitionLimit` for a positive supplied limit and
`timesApplied = ⌊buyCount / buyQuantity⌋` when no limit is supplied; the total
free units satisfy `freeItemsGiven ≤ timesApplied * getQuantity`; and no
single line contributes more free units than its own quantity. -/
theorem bxgy_repetition_and_free_bounds (cartItems : List CartItem) (bq gq : ℕ)
    (buyA getA : List String) (rl : Option ℕ) (a b c d : ℕ) (e : Option ℕ) (f g : ℕ)
    (details : List FreeItemDetail) (tot : ℚ)
    (_hbq : 0 < bq) (_hgq : 0 < gq) (_hcount : bq ≤ buyCountOf cartItems buyA)
    (h : (calculateBxGyDiscount (some cartItems) bq gq (some buyA) (some getA) rl).breakdownInfo
      = some (.bxgy a b c d e f g details tot)) :
    f ≤ buyCountOf cartItems buyA / bq ∧
    (∀ L, rl = some L → 0 < L → f ≤ L) ∧
    (rl = none → f = buyCountOf cartItems buyA / bq) ∧
    g ≤ f * gq ∧
    (∀ dt ∈ details, ∃ it ∈ cartItems, dt.product_id = it.product_id ∧
      dt.price = it.price ∧ dt.quantity ≤ it.quantity) := by
  obtain ⟨hres, -, -, -⟩ := calcBxGy_breakdown_inversion cartItems bq gq buyA getA rl
    a b c d e f g details tot h
  rw [hres] at h
  obtain ⟨-, -, -, -, -, hf, hdet, hg, -, -, -⟩ := finishBxGy_inversion cartItems bq gq getA rl
    (buyCountOf cartItems buyA) a b c d e f g details tot h
  refine ⟨?_, ?_, ?_, ?_, ?_⟩
  · rw [hf]
    exact Nat.min_le_left _ _
  · intro L hL hLpos
    rw [hf, hL]
    have hjs : jsOrNat (some L) (buyCountOf cartItems buyA / bq) = L := by
      simp only [jsOrNat]
      rw [if_neg (by omega)]
    rw [hjs]
    exact Nat.min_le_right _ _
  · intro hnone
    rw [hf, hnone]
    simp only [jsOrNat]
    exact Nat.min_self _
  · rw [hg, hdet, hf]
    exact greedyFree_sum_le _ _
  · intro dt hdt
    rw [hdet] at hdt
    obtain ⟨it, hit, h1, h2, h3⟩ := greedyFree_mem _ _ dt hdt
    have hit' : it ∈ getItemsOf cartItems getA :=
      (sortByPriceDesc_perm (getItemsOf cartItems getA)).mem_iff.mp hit
    have hit'' : it ∈ cartItems := List.mem_of_mem_filter hit'
    exact ⟨it, hit'', h1, h2, h3⟩

theorem bxgy_concrete_breakdown :
    (calculateBxGyDiscount (some [⟨"A", 1, 4⟩, ⟨"F", 200, 1⟩, ⟨"E", 500, 1⟩]) 2 1
      (some ["A"]) (some ["E", "F"]) none).breakdownInfo =
      some (.bxgy 2 4 1 2 none 2 2 [⟨"E", 1, 500, 500⟩, ⟨"F", 1, 200, 200⟩] 700) := by
  have hs := calcBxGyInner_success ⟨"A", 1, 4⟩ [⟨"F", 200, 1⟩, ⟨"E", 500, 1⟩] "A" "E" [] ["F"]
    2 1 none (by decide) (by decide) (by decide)
  unfold calculateBxGyDiscount
  rw [hs, runCaught_ok]
  have hbc : buyCountOf [⟨"A", 1, 4⟩, ⟨"F", 200, 1⟩, ⟨"E", 500, 1⟩] ["A"] = 4 := by decide
  rw [hbc]
  norm_num [finishBxGy, getItemsOf, jsOrNat, sortByPriceDesc, greedyFree, freeItemsGivenOf,
    rawFreeDiscountOf, round2, List.insertionSort, List.orderedInsert, priceDesc,
    List.filter_cons]
  decide

theorem bxgy_prefers_higher_priced_witness :
    freeQtyAt [⟨"E", 1, 500, 500⟩, ⟨"F", 1, 200, 200⟩] 0 =
      ((sortByPriceDesc (getItemsOf [⟨"A", 1, 4⟩, ⟨"F", 200, 1⟩, ⟨"E", 500, 1⟩]
        ["E", "F"])).get ⟨0, by decide⟩).quantity :=
  bxgy_prefers_higher_priced [⟨"A", 1, 4⟩, ⟨"F", 200, 1⟩, ⟨"E", 500, 1⟩] 2 1 ["A"] ["E", "F"]
    none 2 4 1 2 none 2 2 [⟨"E", 1, 500, 500⟩, ⟨"F", 1, 200, 200⟩] 700
    bxgy_concrete_breakdown 1 0 (by decide) (by decide) (by decide) (by decide)

theorem bxgy_repetition_and_free_bounds_witness :
    2 ≤ buyCountOf [⟨"A", 1, 4⟩, ⟨"F", 200, 1⟩, ⟨"E", 500, 1⟩] ["A"] / 2 ∧
    (∀ L, (none : Option ℕ) = some L → 0 < L → 2 ≤ L) ∧
    ((none : Option ℕ) = none →
      2 = buyCountOf [⟨"A", 1, 4⟩, ⟨"F", 200, 1⟩, ⟨"E", 500, 1⟩] ["A"] / 2) ∧
    2 ≤ 2 * 1 ∧
    (∀ dt ∈ [(⟨"E", 1, 500, 500⟩ : FreeItemDetail), ⟨"F", 1, 200, 200⟩],
      ∃ it ∈ [(⟨"A", 1, 4⟩ : CartItem), ⟨"F", 200, 1⟩, ⟨"E", 500, 1⟩],
        dt.product_id = it.product_id ∧ dt.price = it.price ∧ dt.quantity ≤ it.quantity) :=
  bxgy_repetition_and_free_bounds [⟨"A", 1, 4⟩, ⟨"F", 200, 1⟩, ⟨"E", 500, 1⟩] 2 1 ["A"]
    ["E", "F"] none 2 4 1 2 none 2 2 [⟨"E", 1, 500, 500⟩, ⟨"F", 1, 200, 200⟩] 700
    (by decide) (by decide) (by decide) bxgy_concrete_breakdown

theorem itemDiscountOf_nonneg (config : DiscountConfig) (item : CartItem)
    (hval : 0 ≤ config.value) (hprice : 0 ≤ item.price) :
    0 ≤ itemDiscountOf config item := by
  unfold itemDiscountOf
  split
  · positivity
  · split
    · positivity
    · exact le_refl 0

theorem rawFreeDiscountOf_nonneg (details : List FreeItemDetail)
    (h : ∀ d ∈ details, 0 ≤ d.price) : 0 ≤ rawFreeDiscountOf details := by
  unfold rawFreeDiscountOf
  apply List.sum_nonneg
  intro x hx
  simp only [List.mem_map] at hx
  obtain ⟨d, hd, rfl⟩ := hx
  exact mul_nonneg (by positivity) (h d hd)

theorem finishBxGy_false_amount (items : List CartItem) (bq gq : ℕ) (getA : List String)
    (rl : Option ℕ) (bc : ℕ)
    (h : (finishBxGy items bq gq getA rl bc).applicable = false) :
    (finishBxGy items bq gq getA rl bc).discountAmount = 0 := by
  by_cases he : (getItemsOf items getA).isEmpty = true
  · simp [finishBxGy, he]
  · simp [finishBxGy, he] at h

theorem finishBxGy_amount_cases (items : List CartItem) (bq gq : ℕ) (getA : List String)
    (rl : Option ℕ) (bc : ℕ) :
    (finishBxGy items bq gq getA rl bc).discountAmount = 0 ∨
    ∃ details : List FreeItemDetail,
      (finishBxGy items bq gq getA rl bc).discountAmount = round2 (rawFreeDiscountOf details) ∧
      ∀ d ∈ details, ∃ i ∈ items, d.price = i.price := by
  by_cases he : (getItemsOf items getA).isEmpty = true
  · left
    simp [finishBxGy, he]
  · right
    refine ⟨greedyFree (min (bc / bq) (jsOrNat rl (bc / bq)) * gq)
      (sortByPriceDesc (getItemsOf items getA)), by simp [finishBxGy, he], ?_⟩
    intro d hd
    obtain ⟨i, hi, -, h2, -⟩ := greedyFree_mem _ _ d hd
    have hi' : i ∈ getItemsOf items getA :=
      (sortByPriceDesc_perm (getItemsOf items getA)).mem_iff.mp hi
    exact ⟨i, List.mem_of_mem_filter hi', h2⟩

theorem bxgy_app_amount (cartItems : List CartItem) (bq gq : ℕ)
    (buyA getA : List String) (rl : Option ℕ) :
    ((calculateBxGyDiscount (some cartItems) bq gq (some buyA) (some getA) rl).applicable = false ∧
      (calculateBxGyDiscount (some cartItems) bq gq (some buyA) (some getA) rl).discountAmount
        = 0) ∨
    calculateBxGyDiscount (some cartItems) bq gq (some buyA) (some getA) rl =
      finishBxGy cartItems bq gq getA rl (buyCountOf cartItems buyA) := by
  cases cartItems with
  | nil => left; exact ⟨rfl, rfl⟩
  | cons x xs =>
    cases buyA with
    | nil => left; exact ⟨rfl, rfl⟩
    | cons p ps =>
      cases getA with
      | nil => left; exact ⟨rfl, rfl⟩
      | cons q qs =>
        by_cases hq : bq = 0 ∨ gq = 0
        · left
          constructor <;>
            simp [calculateBxGyDiscount, calcBxGyInner, runCaught, hq]
        · push_neg at hq
          obtain ⟨hbq, hgq⟩ := hq
          by_cases hcount : buyCountOf (x :: xs) (p :: ps) < bq
          · left
            constructor <;>
              simp [calculateBxGyDiscount, calcBxGyInner, runCaught, hbq, hgq, hcount]
          · right
            have hs := calcBxGyInner_success x xs p q ps qs bq gq rl hbq hgq hcount
            unfold calculateBxGyDiscount
            rw [hs, runCaught_ok]

theorem cartWise_app_amount (cart : List CartItem) (conds : CouponConditions)
    (config : DiscountConfig) :
    ((calculateCartWiseDiscount (some cart) (some conds) (some config)).applicable = false ∧
      (calculateCartWiseDiscount (some cart) (some conds) (some config)).discountAmount = 0) ∨
    (∃ d : ℚ, calculateCartWiseDiscount (some cart) (some conds) (some config) =
      finishCartWise conds config (cartTotalOf cart) d ∧
      (d = cartTotalOf cart * config.value / 100 ∨ d = config.value)) := by
  cases cart with
  | nil => left; exact ⟨rfl, rfl⟩
  | cons x xs =>
    by_cases hlt : cartTotalOf (x :: xs) < jsOrNum conds.minimum_cart_value 0
    · left
      unfold calculateCartWiseDiscount
      rw [calcCartWiseInner_below x xs conds config hlt, runCaught_ok]
      exact ⟨rfl, rfl⟩
    · by_cases hp : config.type = "PERCENTAGE"
      · right
        refine ⟨_, ?_, Or.inl rfl⟩
        unfold calculateCartWiseDiscount
        rw [calcCartWiseInner_percent x xs conds config hlt hp, runCaught_ok]
      · by_cases hf : config.type = "FIXED_AMOUNT"
        · right
          refine ⟨_, ?_, Or.inr rfl⟩
          unfold calculateCartWiseDiscount
          rw [calcCartWiseInner_fixed x xs conds config hlt hf, runCaught_ok]
        · left
          unfold calculateCartWiseDiscount
          rw [calcCartWiseInner_unknown x xs conds config hlt hp hf, runCaught_error]
          exact ⟨rfl, rfl⟩

theorem finishCartWise_amount_nonneg (conds : CouponConditions) (config : DiscountConfig)
    (t d : ℚ) (hd : 0 ≤ d) (hmax : ∀ m, conds.maximum_discount = some m → 0 ≤ m) :
    0 ≤ (finishCartWise conds config t d).discountAmount := by
  rcases finishCartWise_amount_cases conds config t d with h | h <;> rw [h]
  · exact round2_nonneg hd
  · apply round2_nonneg
    cases hmd : conds.maximum_discount with
    | none => simp
    | some m => simpa using hmax m hmd

/-- C1 (amended). With non-negative prices and a non-negative discount value
and cap: every calculator returns `discountAmount ≥ 0`, and
`applicable = false` implies `discountAmount = 0`; for BxGy the amount is
exactly `round2` of the sum of `price × freeQuantity` over the units marked
free (hence bounded by that sum up to half-cent rounding). The cart-total
bound of the original claim is dropped: it fails for FIXED_AMOUNT (and for
percentages above 100), which the code never clamps to the cart total. -/
theorem discount_invariants_amended (cart : List CartItem) (conds : CouponConditions)
    (config : DiscountConfig) (products : List String)
    (bq gq : ℕ) (buyA getA : List String) (rl : Option ℕ)
    (hprice : ∀ i ∈ cart, 0 ≤ i.price) (hval : 0 ≤ config.value)
    (hmax : ∀ m, conds.maximum_discount = some m → 0 ≤ m) :
    ((0 ≤ (calculateCartWiseDiscount (some cart) (some conds) (some config)).discountAmount) ∧
      ((calculateCartWiseDiscount (some cart) (some conds) (some config)).applicable = false →
        (calculateCartWiseDiscount (some cart) (some conds) (some config)).discountAmount
          = 0)) ∧
    ((0 ≤ (calculateProductWiseDiscount (some cart) (some products)
        (some config)).discountAmount) ∧
      ((calculateProductWiseDiscount (some cart) (some products)
          (some config)).applicable = false →
        (calculateProductWiseDiscount (some cart) (some products)
          (some config)).discountAmount = 0)) ∧
    ((0 ≤ (calculateBxGyDiscount (some cart) bq gq (some buyA) (some getA)
        rl).discountAmount) ∧
      ((calculateBxGyDiscount (some cart) bq gq (some buyA) (some getA)
          rl).applicable = false →
        (calculateBxGyDiscount (some cart) bq gq (some buyA) (some getA)
          rl).discountAmount = 0) ∧
      (∀ a b c d e f g details tot,
        (calculateBxGyDiscount (some cart) bq gq (some buyA) (some getA)
          rl).breakdownInfo = some (.bxgy a b c d e f g details tot) →
        (calculateBxGyDiscount (some cart) bq gq (some buyA) (some getA)
          rl).discountAmount = round2 (rawFreeDiscountOf details))) := by
  have hSnn : 0 ≤ ((eligibleItemsOf cart products).map (itemDiscountOf config)).sum := by
    apply List.sum_nonneg
    intro x hx
    simp only [List.mem_map] at hx
    obtain ⟨i, hi, rfl⟩ := hx
    exact itemDiscountOf_nonneg config i hval (hprice i (List.mem_of_mem_filter hi))
  refine ⟨⟨?_, ?_⟩, ⟨?_, ?_⟩, ?_, ?_, ?_⟩
  · rcases cartWise_app_amount cart conds config with ⟨-, h0⟩ | ⟨d, heq, hd⟩
    · rw [h0]
    · rw [heq]
      apply finishCartWise_amount_nonneg _ _ _ _ ?_ hmax
      rcases hd with rfl | rfl
      · have ht := cartTotalOf_nonneg hprice
        positivity
      · exact hval
  · intro happ
    rcases cartWise_app_amount cart conds config with ⟨-, h0⟩ | ⟨d, heq, -⟩
    · exact h0
    · rw [heq] at happ
      rw [finishCartWise_applicable] at happ
      cases happ
  · have hp := productWise_app_amount cart products (some config)
    by_cases hS : ((eligibleItemsOf cart products).map (itemDiscountOf config)).sum = 0
    · simp only [hS, if_pos, Prod.mk.injEq] at hp
      rw [hp.2]
    · simp only [hS, if_neg, if_false, Prod.mk.injEq] at hp
      rw [hp.2]
      exact round2_nonneg hSnn
  · intro happ
    have hp := productWise_app_amount cart products (some config)
    by_cases hS : ((eligibleItemsOf cart products).map (itemDiscountOf config)).sum = 0
    · simp only [hS, if_pos, Prod.mk.injEq] at hp
      exact hp.2
    · simp only [hS, if_neg, if_false, Prod.mk.injEq] at hp
      rw [happ] at hp
      cases hp.1
  · rcases bxgy_app_amount cart bq gq buyA getA rl with ⟨-, h0⟩ | heq
    · rw [h0]
    · rw [heq]
      rcases finishBxGy_amount_cases cart bq gq getA rl (buyCountOf cart buyA) with
        h0 | ⟨dts, hAmt, hmem⟩
      · rw [h0]
      · rw [hAmt]
        apply round2_nonneg
        apply rawFreeDiscountOf_nonneg
        intro d hd
        obtain ⟨i, hi, hp2⟩ := hmem d hd
        rw [hp2]
        exact hprice i hi
  · intro happ
    rcases bxgy_app_amount cart bq gq buyA getA rl with ⟨-, h0⟩ | heq
    · exact h0
    · rw [heq] at happ ⊢
      exact finishBxGy_false_amount _ _ _ _ _ _ happ
  · intro a b c d e f g details tot h
    obtain ⟨hres, -, -, -⟩ := calcBxGy_breakdown_inversion cart bq gq buyA getA rl
      a b c d e f g details tot h
    rw [hres] at h ⊢
    obtain ⟨-, -, -, -, -, -, -, -, htot, hAmt, -⟩ := finishBxGy_inversion cart bq gq getA rl
      (buyCountOf cart buyA) a b c d e f g details tot h
    rw [hAmt, htot]

/-- C1 counterexample. Cart total `100`, no minimum, FIXED_AMOUNT `500`: the
returned `discountAmount` (500) strictly exceeds the cart total, refuting the
claimed invariant `discountAmount ≤ cart total`. -/
theorem fixed_amount_exceeds_cart_total :
    cartTotalOf [⟨"A", 100, 1⟩] <
      (calculateCartWiseDiscount (some [⟨"A", 100, 1⟩]) (some ⟨none, none⟩)
        (some ⟨"FIXED_AMOUNT", 500⟩)).discountAmount := by
  have h := calcCartWiseInner_fixed ⟨"A", 100, 1⟩ [] ⟨none, none⟩ ⟨"FIXED_AMOUNT", 500⟩
    (by norm_num [cartTotalOf, jsOrNum]) rfl
  unfold calculateCartWiseDiscount
  rw [h, runCaught_ok]
  rw [finishCartWise_amount_of_not_cap _ _ _ _ (by decide)]
  norm_num [cartTotalOf, round2]

theorem discount_invariants_amended_witness :
    ((0 ≤ (calculateCartWiseDiscount (some [⟨"A", 100, 1⟩]) (some ⟨none, none⟩)
        (some ⟨"PERCENTAGE", 10⟩)).discountAmount) ∧
      ((calculateCartWiseDiscount (some [⟨"A", 100, 1⟩]) (some ⟨none, none⟩)
          (some ⟨"PERCENTAGE", 10⟩)).applicable = false →
        (calculateCartWiseDiscount (some [⟨"A", 100, 1⟩]) (some ⟨none, none⟩)
          (some ⟨"PERCENTAGE", 10⟩)).discountAmount = 0)) ∧
    ((0 ≤ (calculateProductWiseDiscount (some [⟨"A", 100, 1⟩]) (some ["A"])
        (some ⟨"PERCENTAGE", 10⟩)).discountAmount) ∧
      ((calculateProductWiseDiscount (some [⟨"A", 100, 1⟩]) (some ["A"])
          (some ⟨"PERCENTAGE", 10⟩)).applicable = false →
        (calculateProductWiseDiscount (some [⟨"A", 100, 1⟩]) (some ["A"])
          (some ⟨"PERCENTAGE", 10⟩)).discountAmount = 0)) ∧
    ((0 ≤ (calculateBxGyDiscount (some [⟨"A", 100, 1⟩]) 1 1 (some ["A"]) (some ["A"])
        none).discountAmount) ∧
      ((calculateBxGyDiscount (some [⟨"A", 100, 1⟩]) 1 1 (some ["A"]) (some ["A"])
          none).applicable = false →
        (calculateBxGyDiscount (some [⟨"A", 100, 1⟩]) 1 1 (some ["A"]) (some ["A"])
          none).discountAmount = 0) ∧
      (∀ a b c d e f g details tot,
        (calculateBxGyDiscount (some [⟨"A", 100, 1⟩]) 1 1 (some ["A"]) (some ["A"])
          none).breakdownInfo = some (.bxgy a b c d e f g details tot) →
        (calculateBxGyDiscount (some [⟨"A", 100, 1⟩]) 1 1 (some ["A"]) (some ["A"])
          none).discountAmount = round2 (rawFreeDiscountOf details))) :=
  discount_invariants_amended [⟨"A", 100, 1⟩] ⟨none, none⟩ ⟨"PERCENTAGE", 10⟩ ["A"]
    1 1 ["A"] ["A"] none (by decide) (by decide) (fun m hm => Option.noConfusion hm)

/-- C10. Each calculator is a total function into EvaluationResult: its try
body either produces the returned result, or throws an error that the
calculator itself catches and converts into the `applicable = false`,
`discountAmount = 0` result whose reason is `Calculation error: ...` — no
exception propagates to the caller. -/
theorem calculators_total_and_catch (ci : Option (List CartItem))
    (cc : Option CouponConditions) (dc : Option DiscountConfig)
    (ap : Option (List String)) (bq gq : ℕ) (ba ga : Option (List String))
    (rl : Option ℕ) :
    ((∃ r, calcCartWiseInner ci cc dc = .ok r ∧ calculateCartWiseDiscount ci cc dc = r) ∨
      (∃ e, calcCartWiseInner ci cc dc = .error e ∧
        calculateCartWiseDiscount ci cc dc =
          { applicable := false, discountAmount := 0,
            reason := some (.calculationError e) })) ∧
    ((∃ r, calcProductWiseInner ci ap dc = .ok r ∧
        calculateProductWiseDiscount ci ap dc = r) ∨
      (∃ e, calcProductWiseInner ci ap dc = .error e ∧
        calculateProductWiseDiscount ci ap dc =
          { applicable := false, discountAmount := 0,
            reason := some (.calculationError e) })) ∧
    ((∃ r, calcBxGyInner ci bq gq ba ga rl = .ok r ∧
        calculateBxGyDiscount ci bq gq ba ga rl = r) ∨
      (∃ e, calcBxGyInner ci bq gq ba ga rl = .error e ∧
        calculateBxGyDiscount ci bq gq ba ga rl =
          { applicable := false, discountAmount := 0,
            reason := some (.calculationError e) })) := by
  refine ⟨?_, ?_, ?_⟩
  · cases h : calcCartWiseInner ci cc dc with
    | ok r =>
      exact Or.inl ⟨r, rfl, by unfold calculateCartWiseDiscount; rw [h, runCaught_ok]⟩
    | error e =>
      exact Or.inr ⟨e, rfl, by unfold calculateCartWiseDiscount; rw [h, runCaught_error]⟩
  · cases h : calcProductWiseInner ci ap dc with
    | ok r =>
      exact Or.inl ⟨r, rfl, by unfold calculateProductWiseDiscount; rw [h, runCaught_ok]⟩
    | error e =>
      exact Or.inr ⟨e, rfl, by unfold calculateProductWiseDiscount; rw [h, runCaught_error]⟩
  · cases h : calcBxGyInner ci bq gq ba ga rl with
    | ok r =>
      exact Or.inl ⟨r, rfl, by unfold calculateBxGyDiscount; rw [h, runCaught_ok]⟩
    | error e =>
      exact Or.inr ⟨e, rfl, by unfold calculateBxGyDiscount; rw [h, runCaught_error]⟩

end DiscountCalculator
